import Mathlib

/-!
Verification development for the smon repository: a shallow embedding of the
snapshot parsers (`slurm_backend.py`), the job filter and the refresh/pane
logic (`smon_dashboard.py`), together with theorems settling the spec claims.

All definitions are translated from the Python source.  Python string
primitives (`str.split`, `str.strip`, `in`, `int`, `str.casefold`,
`str.startswith`) are modelled for the ASCII character range in which the
scheduler output and the claims live; `re` patterns are modelled as leftmost
match scans over character lists.  Every definition uses structural
recursion, so concrete inputs evaluate inside the kernel.
-/

/-- Whitespace set of Python `str.split()` / `str.strip()` (ASCII range). -/
def pyIsSpace (c : Char) : Bool :=
  c = ' ' || c = '\t' || c = '\n' || c = '\r' || c = '\x0b' || c = '\x0c'

/-- Worker for `pySplit`: `acc` holds the current word reversed. -/
def pySplitGo : List Char → List Char → List String
  | [], acc => if acc = [] then [] else [String.mk acc.reverse]
  | c :: cs, acc =>
    if pyIsSpace c then
      if acc = [] then pySplitGo cs []
      else String.mk acc.reverse :: pySplitGo cs []
    else pySplitGo cs (c :: acc)

/-- Python `line.split()`: split on whitespace runs, dropping empty pieces. -/
def pySplit (s : String) : List String :=
  pySplitGo s.toList []

/-- Worker for `pySplitNewline`. -/
def splitLinesGo : List Char → List Char → List String
  | [], acc => [String.mk acc.reverse]
  | c :: cs, acc =>
    if c = '\n' then String.mk acc.reverse :: splitLinesGo cs []
    else splitLinesGo cs (c :: acc)

/-- Python `output.split("\n")`: split at every newline, keeping empties. -/
def pySplitNewline (s : String) : List String :=
  splitLinesGo s.toList []

/-- Python truthiness of `line.strip()` being empty: every char is whitespace. -/
def isBlankLine (line : String) : Bool :=
  line.toList.all pyIsSpace

/-- Contiguous-sublist test over characters, used for Python `sub in s`. -/
def hasInfix : List Char → List Char → Bool
  | l, sub =>
    sub.isPrefixOf l ||
      (match l with
       | [] => false
       | _ :: t => hasInfix t sub)

/-- Python `sub in s` on strings. -/
def pyContains (s sub : String) : Bool :=
  hasInfix s.toList sub.toList

/-- Python `s.startswith(pre)`. -/
def pyStartsWith (s pre : String) : Bool :=
  pre.toList.isPrefixOf s.toList

/-- Python `str.casefold()`; on the ASCII range it coincides with lowercasing. -/
def pyCasefold (s : String) : String :=
  String.mk (s.toList.map Char.toLower)

/-- Numeric value of a run of decimal digit characters. -/
def digitsVal (ds : List Char) : Nat :=
  ds.foldl (fun n c => n * 10 + (c.toNat - '0'.toNat)) 0

/-- Python `int(s)` on a string: optional surrounding whitespace, optional
sign, then a nonempty digit run; anything else raises (`none`). -/
def pyInt (s : String) : Option Int :=
  match (((s.toList.dropWhile pyIsSpace).reverse.dropWhile pyIsSpace).reverse) with
  | '-' :: ds =>
    if ds ≠ [] ∧ ds.all Char.isDigit then some (-(digitsVal ds : Int)) else none
  | '+' :: ds =>
    if ds ≠ [] ∧ ds.all Char.isDigit then some (digitsVal ds : Int) else none
  | ds =>
    if ds ≠ [] ∧ ds.all Char.isDigit then some (digitsVal ds : Int) else none

/-- Python `t.split("=", 1)` for a token known to contain `=`. -/
def splitKV (t : String) : String × String :=
  (String.mk (t.toList.takeWhile (fun c => c ≠ '=')),
   String.mk ((t.toList.dropWhile (fun c => c ≠ '=')).drop 1))

/-- Token map of one node line: `{k: v for k, v in [t.split("=", 1) for t in
tokens if "=" in t]}` (`slurm_backend.py` line 29), kept as an association
list in token order. -/
def tokenPairs (line : String) : List (String × String) :=
  (pySplit line).filterMap fun t =>
    if t.toList.contains '=' then some (splitKV t) else none

/-- Python dict lookup on the comprehension result: a later duplicate key
overwrites an earlier one, so look up in the reversed association list. -/
def pyDictGet (pairs : List (String × String)) (k : String) : Option String :=
  pairs.reverse.lookup k

/-- Python `int(data.get(key, dflt))`: the integer default is passed through
`int` unchanged; a present value is parsed and may raise (`none`). -/
def intField (pairs : List (String × String)) (k : String) (dflt : Int) : Option Int :=
  match pyDictGet pairs k with
  | none => some dflt
  | some v => pyInt v

/-- Try the regex `:(\d+)` at the head of the list: a colon followed by a
nonempty maximal digit run. -/
def colonNumTryAt (l : List Char) : Option Nat :=
  match l with
  | c :: r =>
    if c = ':' then
      if r.takeWhile Char.isDigit = [] then none
      else some (digitsVal (r.takeWhile Char.isDigit))
    else none
  | [] => none

/-- Leftmost match of `:(\d+)`; embeds `re.findall(r":(\d+)", s)[0]`, since
`get_cluster_stats` only uses the first element of the findall result. -/
def colonNumSearch : List Char → Option Nat
  | [] => none
  | c :: cs =>
    match colonNumTryAt (c :: cs) with
    | some n => some n
    | none => colonNumSearch cs

/-- GPU total from the `Gres` field (`slurm_backend.py` lines 38-43): 0 unless
the field contains `"gpu"`, else the first `:(\d+)` match anywhere (0 when
there is none). -/
def nodeGpuTotal (gres_str : String) : Int :=
  if pyContains gres_str "gpu" then
    match colonNumSearch gres_str.toList with
    | some n => (n : Int)
    | none => 0
  else 0

/-- Try the regex `gres/gpu[^=]*=(\d+)` at the head of the list. -/
def gresGpuTryAt (l : List Char) : Option Nat :=
  if ("gres/gpu".toList).isPrefixOf l then
    match (l.drop 8).dropWhile (fun c => c ≠ '=') with
    | '=' :: r =>
      if r.takeWhile Char.isDigit = [] then none
      else some (digitsVal (r.takeWhile Char.isDigit))
    | _ => none
  else none

/-- Leftmost match of `gres/gpu[^=]*=(\d+)`, embedding `re.search`. -/
def gresGpuSearch : List Char → Option Nat
  | [] => none
  | c :: cs =>
    match gresGpuTryAt (c :: cs) with
    | some n => some n
    | none => gresGpuSearch cs

/-- GPU allocation from the `AllocTRES` field (`slurm_backend.py` lines
45-49): 0 unless the field contains `"gres/gpu"`, else the regex match. -/
def nodeGpuAlloc (alloc_tres : String) : Int :=
  if pyContains alloc_tres "gres/gpu" then
    match gresGpuSearch alloc_tres.toList with
    | some n => (n : Int)
    | none => 0
  else 0

/-- One parsed node line (`slurm_backend.py` lines 60-71), with the source's
field names. -/
structure NodeRecord where
  name : String
  state : String
  c_u : Int
  c_t : Int
  m_u : Int
  m_t : Int
  g_u : Int
  g_t : Int
  deriving DecidableEq, Repr

/-- Parse of one non-blank node line (`slurm_backend.py` lines 28-49 and
60-71).  A malformed integer value makes the whole parse raise (`none`);
missing keys fall back to the defaults in the source (`RealMemory` to 1). -/
def parseNodeLine (line : String) : Option NodeRecord :=
  match intField (tokenPairs line) "CPUAlloc" 0,
        intField (tokenPairs line) "CPUTot" 0,
        intField (tokenPairs line) "AllocMem" 0,
        intField (tokenPairs line) "RealMemory" 1 with
  | some c_u, some c_t, some m_u, some m_t =>
    some
      { name := (pyDictGet (tokenPairs line) "NodeName").getD "Unknown"
        state := (pyDictGet (tokenPairs line) "State").getD "Unknown"
        c_u := c_u
        c_t := c_t
        m_u := m_u
        m_t := m_t
        g_u := nodeGpuAlloc ((pyDictGet (tokenPairs line) "AllocTRES").getD "")
        g_t := nodeGpuTotal ((pyDictGet (tokenPairs line) "Gres").getD "") }
  | _, _, _, _ => none

/-- Offline state substrings (`slurm_backend.py` line 23). -/
def offline_states : List String :=
  ["DOWN", "DRAIN", "FAIL", "MAINT", "NO_RESPOND"]

/-- The guard `not any(s in state for s in offline_states)` of line 56. -/
def nodeIsOnline (state : String) : Bool :=
  !(offline_states.any fun s => pyContains state s)

/-- Per-node contribution to the unrestricted totals (lines 51-54). -/
def nodeContrib (nd : NodeRecord) : Int × Int × Int × Int :=
  (nd.c_u, nd.c_t, nd.g_u, nd.g_t)

/-- Componentwise sum of 4-tuples of accumulators. -/
def addT4 (a b : Int × Int × Int × Int) : Int × Int × Int × Int :=
  (a.1 + b.1, a.2.1 + b.2.1, a.2.2.1 + b.2.2.1, a.2.2.2 + b.2.2.2)

/-- Componentwise sum of 2-tuples of accumulators. -/
def addT2 (a b : Int × Int) : Int × Int :=
  (a.1 + b.1, a.2 + b.2)

/-- The per-line loop of `get_cluster_stats` (lines 25-71): skip blank lines,
parse each remaining line (propagating a raise), append the record and
accumulate the totals; online capacity is accumulated only when no offline
substring occurs in the state. -/
def nodeLoop : List String → List NodeRecord → (Int × Int × Int × Int) →
    (Int × Int) → Option (List NodeRecord × (Int × Int × Int × Int) × (Int × Int))
  | [], recs, theo, real => some (recs, theo, real)
  | line :: rest, recs, theo, real =>
    if isBlankLine line then nodeLoop rest recs theo real
    else
      match parseNodeLine line with
      | none => none
      | some nd =>
        nodeLoop rest (recs ++ [nd]) (addT4 theo (nodeContrib nd))
          (if nodeIsOnline nd.state then addT2 real (nd.c_t, nd.g_t) else real)

/-- `get_cluster_stats` applied to the captured command output (the executor
boundary itself is out of scope): `none` models an uncaught exception during
parsing. -/
def get_cluster_stats (output : String) :
    Option (List NodeRecord × (Int × Int × Int × Int) × (Int × Int)) :=
  nodeLoop (pySplitNewline output) [] (0, 0, 0, 0) (0, 0)

/-- Independent per-line parses of the non-blank lines, used to state that one
line's record does not depend on its neighbours. -/
def parseNodeLines : List String → Option (List NodeRecord)
  | [] => some []
  | line :: rest =>
    if isBlankLine line then parseNodeLines rest
    else
      match parseNodeLine line, parseNodeLines rest with
      | some nd, some ns => some (nd :: ns)
      | _, _ => none

/-- One parsed job row (`slurm_backend.py` lines 121-141), with the source's
dictionary keys as field names. -/
structure JobRecord where
  id : String
  user : String
  state : String
  time : String
  left : String
  prio : String
  nodes : String
  reason : String
  gpu : String
  name : String
  cpu : String
  mem : String
  part : String
  account : String
  qos : String
  submit : String
  dep : String
  deriving DecidableEq, Repr

/-- Try one literal alternative of `(?:gpu_total|total_gpu|gres/gpu)[:=](\d+)`
at the head of the list, returning the matched digit characters (the code
keeps `group(1)` as a raw string). -/
def altTryAt (pat : List Char) (l : List Char) : Option (List Char) :=
  if pat.isPrefixOf l then
    match l.drop pat.length with
    | x :: r =>
      if x = ':' ∨ x = '=' then
        if r.takeWhile Char.isDigit = [] then none
        else some (r.takeWhile Char.isDigit)
      else none
    | [] => none
  else none

/-- Try the full alternation at the head of the list; the alternatives start
with distinct prefixes, so alternation order never matters at one position. -/
def totalGpuTryAt (l : List Char) : Option (List Char) :=
  match altTryAt "gpu_total".toList l with
  | some ds => some ds
  | none =>
    match altTryAt "total_gpu".toList l with
    | some ds => some ds
    | none => altTryAt "gres/gpu".toList l

/-- Leftmost match of `(?:gpu_total|total_gpu|gres/gpu)[:=](\d+)`, embedding
the `re.search` on `slurm_backend.py` lines 103-105. -/
def totalGpuSearch : List Char → Option (List Char)
  | [] => none
  | c :: cs =>
    match totalGpuTryAt (c :: cs) with
    | some ds => some ds
    | none => totalGpuSearch cs

/-- Try the regex `gpu[^0-9]*(\d+)` at the head of the list: the literal
`gpu`, any run of non-digits, then a nonempty maximal digit run. -/
def perNodeTryAt (l : List Char) : Option Nat :=
  if ("gpu".toList).isPrefixOf l then
    match ((l.drop 3).dropWhile fun c => !c.isDigit) with
    | [] => none
    | r => some (digitsVal (r.takeWhile Char.isDigit))
  else none

/-- Leftmost match of `gpu[^0-9]*(\d+)`, embedding the `re.search` on
`slurm_backend.py` line 110. -/
def perNodeGpuScan : List Char → Option Nat
  | [] => none
  | c :: cs =>
    match perNodeTryAt (c :: cs) with
    | some n => some n
    | none => perNodeGpuScan cs

/-- GPU-count derivation for one job row (`slurm_backend.py` lines 98-115):
tier 1 uses an explicit total token, tier 2 multiplies the per-node count by
the node count, otherwise the dash placeholder; an exception from `int` on
the node-count field is swallowed back to the placeholder. -/
def gpuCountOf (gpu_field nodesField : String) : String :=
  if pyContains gpu_field "gpu" then
    match totalGpuSearch gpu_field.toList with
    | some ds => String.mk ds
    | none =>
      match pyInt nodesField with
      | none => "-"
      | some node_mult =>
        match perNodeGpuScan gpu_field.toList with
        | some per_node => toString (node_mult * (per_node : Int))
        | none => "-"
  else "-"

/-- Dependency sentinel normalization (`slurm_backend.py` lines 117-119). -/
def normalizeDep (dep : String) : String :=
  if dep = "(null)" ∨ dep = "N/A" then "" else dep

/-- Parse of one job row (`slurm_backend.py` lines 92-141): blank rows and
rows with fewer than 17 whitespace-separated fields are skipped. -/
def parseJobRow (line : String) : Option JobRecord :=
  if isBlankLine line then none
  else
    if (pySplit line).length < 17 then none
    else
      some
        { id := (pySplit line).getD 0 ""
          user := (pySplit line).getD 1 ""
          state := (pySplit line).getD 2 ""
          time := (pySplit line).getD 3 ""
          left := (pySplit line).getD 4 ""
          prio := (pySplit line).getD 5 ""
          nodes := (pySplit line).getD 6 ""
          reason := (pySplit line).getD 7 ""
          gpu := gpuCountOf ((pySplit line).getD 8 "") ((pySplit line).getD 6 "")
          name := (pySplit line).getD 9 ""
          cpu := (pySplit line).getD 10 ""
          mem := (pySplit line).getD 11 ""
          part := (pySplit line).getD 12 ""
          account := (pySplit line).getD 13 ""
          qos := (pySplit line).getD 14 ""
          submit := (pySplit line).getD 15 ""
          dep := normalizeDep ((pySplit line).getD 16 "") }

/-- `get_job_stats` applied to the captured command output: drop the header
line, then parse the remaining rows in order. -/
def get_job_stats (output : String) : List JobRecord :=
  match pySplitNewline output with
  | [] => []
  | _ :: rest => rest.filterMap parseJobRow

/-- `SlurmDashboard._filters_enabled` (`smon_dashboard.py` lines 469-470):
Python truthiness of `user or pref`. -/
def filters_enabled (user pref : String) : Bool :=
  !(user == "") || !(pref == "")

/-- The filtering loop of `_filter_jobs` (`smon_dashboard.py` lines 480-494),
taking the already-casefolded criteria. -/
def filterJobsGo (uf pf : String) : List JobRecord → List JobRecord
  | [] => []
  | j :: rest =>
    if (if uf == "" then true else pyCasefold j.user == uf) &&
        (if pf == "" then true else pyStartsWith (pyCasefold j.name) pf) then
      j :: filterJobsGo uf pf rest
    else filterJobsGo uf pf rest

/-- `SlurmDashboard._filter_jobs` (`smon_dashboard.py` lines 472-494): the
identity when no criterion is set, else the conjunctive casefolded filter. -/
def filter_jobs (user pref : String) (jobs : List JobRecord) : List JobRecord :=
  if filters_enabled user pref then
    filterJobsGo (pyCasefold user) (pyCasefold pref) jobs
  else jobs

/-- Spec-side match predicate of section 4.4: the user criterion (when set)
matches case-insensitively, AND the name criterion (when set) is a
case-insensitive prefix of the job name. -/
def jobMatches (user pref : String) (j : JobRecord) : Bool :=
  (if user == "" then true else pyCasefold j.user == pyCasefold user) &&
    (if pref == "" then true else pyStartsWith (pyCasefold j.name) (pyCasefold pref))

/-- Cursor restoration of `update_data` (`smon_dashboard.py` lines 634-640 and
684-691): after the rebuild, when the new table is nonempty the captured
cursor is clamped into range; `none` records that `move_cursor` is not called
on an empty table. -/
def update_table_cursor (cursor : Int × Int) (newRowCount newColCount : Nat) :
    Option (Int × Int) :=
  if 0 < newRowCount then
    some (min (max cursor.1 0) ((newRowCount : Int) - 1),
          min (max cursor.2 0) ((newColCount : Int) - 1))
  else none

/-- Pane modes of `SlurmDashboard.pane_mode`. -/
inductive PaneMode where
  | split
  | nodes
  | jobs
  deriving DecidableEq, Repr

/-- The dashboard state consulted by the pane-layout actions:
`pane_mode`, `node_pane_width`, and the terminal width `self.size.width`. -/
structure DashState where
  pane_mode : PaneMode
  node_pane_width : Int
  sizeWidth : Int
  deriving DecidableEq, Repr

/-- `SlurmDashboard.MIN_NODE_PANE_WIDTH`. -/
def MIN_NODE_PANE_WIDTH : Int := 24

/-- `SlurmDashboard.PANE_RESIZE_STEP`. -/
def PANE_RESIZE_STEP : Int := 4

/-- `SlurmDashboard.apply_pane_layout` (`smon_dashboard.py` lines 270-297),
restricted to its effect on the modelled state: in `split` mode the width is
reclamped to `[MIN_NODE_PANE_WIDTH, max(MIN_NODE_PANE_WIDTH, size.width - 40)]`;
the single-pane modes leave the width untouched. -/
def apply_pane_layout (s : DashState) : DashState :=
  match s.pane_mode with
  | PaneMode.nodes => s
  | PaneMode.jobs => s
  | PaneMode.split =>
    { s with
      node_pane_width :=
        max MIN_NODE_PANE_WIDTH
          (min s.node_pane_width (max MIN_NODE_PANE_WIDTH (s.sizeWidth - 40))) }

/-- `SlurmDashboard.action_widen_nodes_pane` (`smon_dashboard.py` lines
582-589). -/
def action_widen_nodes_pane (s : DashState) : DashState :=
  if s.pane_mode ≠ PaneMode.split then s
  else
    apply_pane_layout
      { s with
        node_pane_width :=
          min (max MIN_NODE_PANE_WIDTH (s.sizeWidth - 40))
            (s.node_pane_width + PANE_RESIZE_STEP) }

/-- `SlurmDashboard.action_narrow_nodes_pane` (`smon_dashboard.py` lines
574-580). -/
def action_narrow_nodes_pane (s : DashState) : DashState :=
  if s.pane_mode ≠ PaneMode.split then s
  else
    apply_pane_layout
      { s with
        node_pane_width := max MIN_NODE_PANE_WIDTH (s.node_pane_width - PANE_RESIZE_STEP) }

/-- `SlurmDashboard.on_resize` (`smon_dashboard.py` lines 266-268). -/
def on_resize (s : DashState) : DashState :=
  if s.pane_mode = PaneMode.split then apply_pane_layout s else s

/-- Componentwise totals of a record list, the value the accumulators of
`nodeLoop` reach: `(cpuUsed, cpuTotal, gpuUsed, gpuTotal)`. -/
def totalsOf : List NodeRecord → Int × Int × Int × Int
  | [] => (0, 0, 0, 0)
  | nd :: rest => addT4 (nodeContrib nd) (totalsOf rest)

/-- Online-capacity totals of a record list: `(cpuCapacityOnline,
gpuCapacityOnline)` restricted to nodes with no offline substring. -/
def onlineOf : List NodeRecord → Int × Int
  | [] => (0, 0)
  | nd :: rest =>
    if nodeIsOnline nd.state then addT2 (nd.c_t, nd.g_t) (onlineOf rest)
    else onlineOf rest

/-- Concrete job row used to exercise the filter theorems. -/
def mkJob (user name : String) : JobRecord :=
  { id := "1", user := user, state := "RUNNING", time := "", left := "", prio := "",
    nodes := "", reason := "", gpu := "-", name := name, cpu := "", mem := "",
    part := "", account := "", qos := "", submit := "", dep := "" }

theorem addT4_zero_left (x : Int × Int × Int × Int) : addT4 (0, 0, 0, 0) x = x := by
  obtain ⟨a, b, c, d⟩ := x
  simp [addT4]

theorem addT4_zero_right (x : Int × Int × Int × Int) : addT4 x (0, 0, 0, 0) = x := by
  obtain ⟨a, b, c, d⟩ := x
  simp [addT4]

theorem addT2_zero_left (x : Int × Int) : addT2 (0, 0) x = x := by
  obtain ⟨a, b⟩ := x
  simp [addT2]

theorem addT2_zero_right (x : Int × Int) : addT2 x (0, 0) = x := by
  obtain ⟨a, b⟩ := x
  simp [addT2]

theorem addT4_assoc (x y z : Int × Int × Int × Int) :
    addT4 (addT4 x y) z = addT4 x (addT4 y z) := by
  simp [addT4, Int.add_assoc]

theorem addT2_assoc (x y z : Int × Int) : addT2 (addT2 x y) z = addT2 x (addT2 y z) := by
  simp [addT2, Int.add_assoc]

/-- C1: restoring the cursor of a rebuilt render table with `newRowCount > 0`
rows and `newColumnCount > 0` columns yields exactly the clamp
`(min(max(row, 0), newRowCount - 1), min(max(col, 0), newColumnCount - 1))`,
which is never negative and never out of range. -/
theorem cursor_restore_clamps (r c : Int) (nR nC : Nat) (hR : 0 < nR) (hC : 0 < nC) :
    update_table_cursor (r, c) nR nC =
      some (min (max r 0) ((nR : Int) - 1), min (max c 0) ((nC : Int) - 1)) ∧
    0 ≤ min (max r 0) ((nR : Int) - 1) ∧ min (max r 0) ((nR : Int) - 1) ≤ (nR : Int) - 1 ∧
    0 ≤ min (max c 0) ((nC : Int) - 1) ∧ min (max c 0) ((nC : Int) - 1) ≤ (nC : Int) - 1 := by
  refine ⟨by simp [update_table_cursor, hR], ?_, ?_, ?_, ?_⟩ <;> omega

theorem cursor_restore_clamps_witness :
    (0 : Nat) < 3 ∧ update_table_cursor (5, 0) 3 5 = some (2, 0) := by
  refine ⟨by decide, ?_⟩
  have h := (cursor_restore_clamps 5 0 3 5 (by decide) (by decide)).1
  rw [h]
  decide

/-- C3: the spec requires that a malformed (non-numeric) integer field only
falls back to its default, but `get_cluster_stats` calls `int()` on such a
value with no exception handler, so the whole parse aborts; evaluating the
embedded code at the failing input shows the raise. -/
theorem node_parse_aborts_on_malformed_int :
    get_cluster_stats "NodeName=n1 CPUAlloc=abc" = none := by decide

/-- C6: filtering with both criteria fields empty short-circuits and returns
the input list itself. -/
theorem filter_empty_identity (jobs : List JobRecord) : filter_jobs "" "" jobs = jobs := rfl

/-- C8: the scenario job row parses to exactly one record whose dependency is
normalized from the `(null)` sentinel to the empty string, whose gpu field is
the tier-2 fallback `8 * 4 = 32`, and whose state is `PENDING`. -/
theorem job_row_scenario :
    (parseJobRow "451953 bob PENDING 00:00:00 08:00:00 4680 8 Priority gpu:4 diffusion_lr_schedule 512 2048G gpu ml_ops std 2026-02-21T12:02:11 (null)").map
        (fun j => (j.dep, j.gpu, j.state)) = some ("", "32", "PENDING") ∧
    (get_job_stats "JOBID USER STATE TIME TIME_LEFT PRIORITY NODES NODELIST(REASON) TRES_PER_NODE NAME CPUS MIN_MEMORY PARTITION ACCOUNT QOS SUBMIT_TIME DEPENDENCY\n451953 bob PENDING 00:00:00 08:00:00 4680 8 Priority gpu:4 diffusion_lr_schedule 512 2048G gpu ml_ops std 2026-02-21T12:02:11 (null)").map
        (fun j => (j.dep, j.gpu, j.state)) = [("", "32", "PENDING")] := by
  constructor
  · decide
  · decide

/-- C9 (amended): in `split` mode every width-adjust action and every handled
resize leaves the node pane width in
`[MIN_NODE_PANE_WIDTH, max(MIN_NODE_PANE_WIDTH, size.width - 40)]`; outside
`split` mode the width-adjust actions leave the width unchanged.  (The claim's
interval `[24, width - 40]` is empty for terminals narrower than 64 columns,
where the code clamps to 24 instead.) -/
theorem pane_width_clamp_amended (s : DashState) :
    (s.pane_mode = PaneMode.split →
      (MIN_NODE_PANE_WIDTH ≤ (action_widen_nodes_pane s).node_pane_width ∧
        (action_widen_nodes_pane s).node_pane_width ≤
          max MIN_NODE_PANE_WIDTH (s.sizeWidth - 40)) ∧
      (MIN_NODE_PANE_WIDTH ≤ (action_narrow_nodes_pane s).node_pane_width ∧
        (action_narrow_nodes_pane s).node_pane_width ≤
          max MIN_NODE_PANE_WIDTH (s.sizeWidth - 40)) ∧
      (MIN_NODE_PANE_WIDTH ≤ (on_resize s).node_pane_width ∧
        (on_resize s).node_pane_width ≤ max MIN_NODE_PANE_WIDTH (s.sizeWidth - 40))) ∧
    (s.pane_mode ≠ PaneMode.split →
      (action_widen_nodes_pane s).node_pane_width = s.node_pane_width ∧
      (action_narrow_nodes_pane s).node_pane_width = s.node_pane_width) := by
  obtain ⟨m, w, tw⟩ := s
  constructor
  · intro hm
    subst hm
    refine ⟨⟨?_, ?_⟩, ⟨?_, ?_⟩, ?_, ?_⟩ <;>
      (simp [action_widen_nodes_pane, action_narrow_nodes_pane, on_resize,
        apply_pane_layout, MIN_NODE_PANE_WIDTH, PANE_RESIZE_STEP]; try omega)
  · intro hm
    exact ⟨by simp [action_widen_nodes_pane, hm],
      by simp [action_narrow_nodes_pane, hm]⟩

theorem pane_width_clamp_amended_witness :
    MIN_NODE_PANE_WIDTH ≤
      (action_widen_nodes_pane ⟨PaneMode.split, 100, 120⟩).node_pane_width ∧
    (action_widen_nodes_pane ⟨PaneMode.split, 100, 120⟩).node_pane_width ≤
      max MIN_NODE_PANE_WIDTH ((120 : Int) - 40) :=
  ((pane_width_clamp_amended ⟨PaneMode.split, 100, 120⟩).1 rfl).1

/-- C9 counterexample: with a 50-column terminal in `split` mode, widening
clamps the pane to 24, which exceeds the claim's upper bound
`terminalWidth - reservedForJobsPane = 10`. -/
theorem pane_width_exceeds_claimed_bound :
    (action_widen_nodes_pane ⟨PaneMode.split, 30, 50⟩).node_pane_width = 24 ∧
    ¬((action_widen_nodes_pane ⟨PaneMode.split, 30, 50⟩).node_pane_width ≤
        (50 : Int) - 40) := by decide

theorem takeWhile_all_append (p : Char → Bool) (ds b : List Char)
    (h : ds.all p = true) (hb : ∀ d, b.head? = some d → p d = false) :
    (ds ++ b).takeWhile p = ds := by
  induction ds with
  | nil =>
    cases b with
    | nil => rfl
    | cons d bs => simp [List.takeWhile_cons, hb d rfl]
  | cons d ds ih =>
    simp only [List.all_cons, Bool.and_eq_true] at h
    simp [List.takeWhile_cons, h.1, ih h.2]

theorem colonNumSearch_append (a ds b : List Char)
    (ha : colonNumSearch a = none) (hds : ds ≠ [])
    (hdig : ds.all Char.isDigit = true)
    (hb : ∀ d, b.head? = some d → d.isDigit = false) :
    colonNumSearch (a ++ ':' :: ds ++ b) = some (digitsVal ds) := by
  induction a with
  | nil =>
    have htw : (ds ++ b).takeWhile Char.isDigit = ds :=
      takeWhile_all_append Char.isDigit ds b hdig hb
    simp only [List.nil_append]
    rw [colonNumSearch.eq_def]
    simp [colonNumTryAt, htw, hds]
  | cons c a ih =>
    simp only [colonNumSearch] at ha
    cases htry : colonNumTryAt (c :: a) with
    | some n => rw [htry] at ha; simp at ha
    | none =>
      rw [htry] at ha
      have hstep : colonNumTryAt (c :: (a ++ ':' :: ds ++ b)) = none := by
        by_cases hc : c = ':'
        · subst hc
          have hta : a.takeWhile Char.isDigit = [] := by
            by_contra hne
            simp [colonNumTryAt, hne] at htry
          have hhead : (a ++ ':' :: ds ++ b).takeWhile Char.isDigit = [] := by
            cases a with
            | nil =>
              simp only [List.nil_append, List.cons_append]
              rw [List.takeWhile_cons, if_neg (by decide)]
            | cons x xs =>
              rw [List.takeWhile_cons] at hta
              by_cases hx : Char.isDigit x
              · simp [hx] at hta
              · simp only [List.cons_append]
                rw [List.takeWhile_cons, if_neg hx]
          simp only [colonNumTryAt]
          rw [if_pos trivial, if_pos hhead]
        · simp [colonNumTryAt, hc]
      show colonNumSearch (c :: (a ++ ':' :: ds ++ b)) = some (digitsVal ds)
      simp only [colonNumSearch, hstep]
      exact ih ha

theorem colonNumSearch_eq_none (l : List Char)
    (h : ∀ x y : List Char, l = x ++ ':' :: y → ∀ d, y.head? = some d → d.isDigit = false) :
    colonNumSearch l = none := by
  induction l with
  | nil => rfl
  | cons c cs ih =>
    have htry : colonNumTryAt (c :: cs) = none := by
      by_cases hc : c = ':'
      · subst hc
        have hcs : ∀ d, cs.head? = some d → d.isDigit = false := h [] cs rfl
        have htw : cs.takeWhile Char.isDigit = [] := by
          cases cs with
          | nil => rfl
          | cons d t => rw [List.takeWhile_cons, if_neg (by simp [hcs d rfl])]
        simp only [colonNumTryAt]
        rw [if_pos trivial, if_pos htw]
      · simp [colonNumTryAt, hc]
    simp only [colonNumSearch, htry]
    exact ih fun x y hxy d hd => h (c :: x) y (by rw [hxy, List.cons_append]) d hd

/-- C4 (amended): a Gres string without the substring `gpu` yields
`gpuTotal = 0`; a Gres string containing `gpu` yields as `gpuTotal` the value
of the first `:<digits>` pattern anywhere in the string — not necessarily the
one following `gpu` — and 0 when no colon in the string is followed by a
digit, that is, when there is no `:<digits>` pattern at all. -/
theorem gres_gpu_total_amended :
    (∀ s : String, pyContains s "gpu" = false → nodeGpuTotal s = 0) ∧
    (∀ a ds b : List Char, colonNumSearch a = none → ds ≠ [] →
      ds.all Char.isDigit = true → (∀ d, b.head? = some d → d.isDigit = false) →
      pyContains (String.mk (a ++ ':' :: ds ++ b)) "gpu" = true →
      nodeGpuTotal (String.mk (a ++ ':' :: ds ++ b)) = (digitsVal ds : Int)) ∧
    (∀ s : String, pyContains s "gpu" = true →
      (∀ x y : List Char, s.toList = x ++ ':' :: y →
        ∀ d, y.head? = some d → d.isDigit = false) →
      nodeGpuTotal s = 0) := by
  refine ⟨?_, ?_, ?_⟩
  · intro s h
    simp [nodeGpuTotal, h]
  · intro a ds b ha hds hdig hb hgpu
    have hsearch := colonNumSearch_append a ds b ha hds hdig hb
    rw [nodeGpuTotal, if_pos hgpu,
      show (String.mk (a ++ ':' :: ds ++ b)).toList = a ++ ':' :: ds ++ b from rfl,
      hsearch]
  · intro s h1 h2
    have hnone : colonNumSearch s.data = none := colonNumSearch_eq_none s.toList h2
    simp [nodeGpuTotal, h1, hnone]

theorem gres_gpu_total_amended_witness :
    nodeGpuTotal "cpuonly" = 0 ∧
    nodeGpuTotal (String.mk (['g', 'p', 'u'] ++ ':' :: ['4'] ++ [])) =
      (digitsVal ['4'] : Int) ∧
    nodeGpuTotal "gpu" = 0 := by
  have h3 : ∀ x y : List Char, "gpu".toList = x ++ ':' :: y →
      ∀ d, y.head? = some d → d.isDigit = false := by
    intro x y hxy d hd
    exfalso
    have hmem : ':' ∈ "gpu".toList := by
      rw [hxy]
      exact List.mem_append_right x (List.mem_cons_self ':' y)
    exact absurd hmem (by decide)
  refine ⟨gres_gpu_total_amended.1 "cpuonly" (by decide), ?_,
    gres_gpu_total_amended.2.2 "gpu" (by decide) h3⟩
  exact gres_gpu_total_amended.2.1 ['g', 'p', 'u'] ['4'] []
    (by decide) (by decide) (by decide)
    (fun d hd => Option.noConfusion hd) (by decide)

/-- C4 counterexample: `"fpga:2,gpu:4"` contains the substring `"gpu:4"`, yet
the parsed gpuTotal is 2 (the first `:<digits>` in the whole string), not the
4 that follows `gpu` as the claim states. -/
theorem gres_first_colon_not_after_gpu :
    pyContains "fpga:2,gpu:4" "gpu:4" = true ∧ nodeGpuTotal "fpga:2,gpu:4" ≠ 4 := by
  decide

theorem pyCasefold_beq_empty (s : String) : (pyCasefold s == "") = (s == "") := by
  cases s with
  | mk data =>
    cases data with
    | nil => rfl
    | cons c cs => rfl

theorem filterJobsGo_eq_filter (user pref : String) (jobs : List JobRecord) :
    filterJobsGo (pyCasefold user) (pyCasefold pref) jobs =
      jobs.filter (jobMatches user pref) := by
  induction jobs with
  | nil => rfl
  | cons j rest ih =>
    simp only [filterJobsGo, List.filter_cons, jobMatches, pyCasefold_beq_empty, ih]

/-- C7: with a non-empty criterion, `_filter_jobs` returns exactly the ordered
subsequence of jobs matching the conjunction of the case-insensitive
user-equality and name-prefix tests: it equals `List.filter` of the spec
predicate and is a sublist (order-preserving subsequence) of the input. -/
theorem filter_conjunctive_subsequence (user pref : String) (jobs : List JobRecord)
    (h : filters_enabled user pref = true) :
    filter_jobs user pref jobs = jobs.filter (jobMatches user pref) ∧
    List.Sublist (filter_jobs user pref jobs) jobs := by
  have h1 : filter_jobs user pref jobs = jobs.filter (jobMatches user pref) := by
    have h2 : filter_jobs user pref jobs =
        filterJobsGo (pyCasefold user) (pyCasefold pref) jobs := by
      simp [filter_jobs, h]
    rw [h2]
    exact filterJobsGo_eq_filter user pref jobs
  exact ⟨h1, h1 ▸ List.filter_sublist jobs⟩

theorem filter_conjunctive_subsequence_witness :
    filters_enabled "alice" "train" = true ∧
    (filter_jobs "alice" "train" [mkJob "ALICE" "Train_a", mkJob "bob" "train_b"] =
        List.filter (jobMatches "alice" "train")
          [mkJob "ALICE" "Train_a", mkJob "bob" "train_b"] ∧
      List.Sublist (filter_jobs "alice" "train" [mkJob "ALICE" "Train_a", mkJob "bob" "train_b"])
        [mkJob "ALICE" "Train_a", mkJob "bob" "train_b"]) :=
  ⟨by decide,
    filter_conjunctive_subsequence "alice" "train"
      [mkJob "ALICE" "Train_a", mkJob "bob" "train_b"] (by decide)⟩

theorem nodeLoop_eq (lines : List String) :
    ∀ recs theo real,
      nodeLoop lines recs theo real =
        match parseNodeLines lines with
        | none => none
        | some ns => some (recs ++ ns, addT4 theo (totalsOf ns), addT2 real (onlineOf ns)) := by
  induction lines with
  | nil =>
    intro recs theo real
    show some (recs, theo, real) =
      some (recs ++ [], addT4 theo (totalsOf []), addT2 real (onlineOf []))
    rw [List.append_nil, show totalsOf [] = (0, 0, 0, 0) from rfl,
      show onlineOf [] = (0, 0) from rfl, addT4_zero_right, addT2_zero_right]
  | cons line rest ih =>
    intro recs theo real
    by_cases hb : isBlankLine line
    · simp only [nodeLoop, parseNodeLines, hb, if_true]
      exact ih recs theo real
    · simp only [nodeLoop, parseNodeLines, hb, Bool.false_eq_true, if_false]
      cases hp : parseNodeLine line with
      | none => rfl
      | some nd =>
        cases hq : parseNodeLines rest with
        | none =>
          dsimp only
          rw [ih, hq]
        | some ns =>
          dsimp only
          rw [ih, hq]
          dsimp only
          rw [List.append_assoc, List.singleton_append,
            show totalsOf (nd :: ns) = addT4 (nodeContrib nd) (totalsOf ns) from rfl,
            ← addT4_assoc,
            show onlineOf (nd :: ns) =
              (if nodeIsOnline nd.state then addT2 (nd.c_t, nd.g_t) (onlineOf ns)
               else onlineOf ns) from rfl]
          by_cases ho : nodeIsOnline nd.state
          · rw [if_pos ho, if_pos ho, ← addT2_assoc]
          · rw [if_neg ho, if_neg ho]

theorem get_cluster_stats_eq (output : String) :
    get_cluster_stats output =
      match parseNodeLines (pySplitNewline output) with
      | none => none
      | some ns => some (ns, totalsOf ns, onlineOf ns) := by
  rw [get_cluster_stats, nodeLoop_eq]
  cases parseNodeLines (pySplitNewline output) with
  | none => rfl
  | some ns =>
    dsimp only
    rw [List.nil_append, addT4_zero_left, addT2_zero_left]

theorem totalsOf_eq_sums (ns : List NodeRecord) :
    totalsOf ns = ((ns.map fun n => n.c_u).sum, (ns.map fun n => n.c_t).sum,
      (ns.map fun n => n.g_u).sum, (ns.map fun n => n.g_t).sum) := by
  induction ns with
  | nil => rfl
  | cons n rest ih => simp [totalsOf, addT4, nodeContrib, ih]

theorem onlineOf_eq_sums (ns : List NodeRecord) :
    onlineOf ns = (((ns.filter fun n => nodeIsOnline n.state).map fun n => n.c_t).sum,
      ((ns.filter fun n => nodeIsOnline n.state).map fun n => n.g_t).sum) := by
  induction ns with
  | nil => rfl
  | cons n rest ih =>
    by_cases h : nodeIsOnline n.state
    · simp [onlineOf, h, List.filter_cons, addT2, ih]
    · simp [onlineOf, h, List.filter_cons, ih]

/-- C5: in every successfully parsed node snapshot, the online-capacity pair
sums `c_t`/`g_t` only over nodes whose state contains none of the offline
substrings (`nodeIsOnline`), while the unrestricted totals sum every node's
`c_u`, `c_t`, `g_u`, `g_t`. -/
theorem online_capacity_sums (output : String) (nodes : List NodeRecord)
    (theo : Int × Int × Int × Int) (real : Int × Int)
    (h : get_cluster_stats output = some (nodes, theo, real)) :
    real.1 = ((nodes.filter fun n => nodeIsOnline n.state).map fun n => n.c_t).sum ∧
    real.2 = ((nodes.filter fun n => nodeIsOnline n.state).map fun n => n.g_t).sum ∧
    theo.1 = (nodes.map fun n => n.c_u).sum ∧
    theo.2.1 = (nodes.map fun n => n.c_t).sum ∧
    theo.2.2.1 = (nodes.map fun n => n.g_u).sum ∧
    theo.2.2.2 = (nodes.map fun n => n.g_t).sum := by
  rw [get_cluster_stats_eq] at h
  cases hq : parseNodeLines (pySplitNewline output) with
  | none => rw [hq] at h; exact absurd h (by simp)
  | some ns =>
    rw [hq] at h
    simp only [Option.some.injEq, Prod.mk.injEq] at h
    obtain ⟨rfl, ht, hr⟩ := h
    rw [totalsOf_eq_sums] at ht
    rw [onlineOf_eq_sums] at hr
    rw [← ht, ← hr]
    simp

theorem online_capacity_sums_witness :
    get_cluster_stats "NodeName=a State=IDLE CPUAlloc=2 CPUTot=4 Gres=gpu:8\nNodeName=b State=DRAINING CPUAlloc=1 CPUTot=16 Gres=gpu:2" =
      some ([⟨"a", "IDLE", 2, 4, 0, 1, 0, 8⟩, ⟨"b", "DRAINING", 1, 16, 0, 1, 0, 2⟩],
        (3, 20, 0, 10), (4, 8)) ∧
    ((4 : Int), (8 : Int)).1 =
      (([⟨"a", "IDLE", 2, 4, 0, 1, 0, 8⟩,
          (⟨"b", "DRAINING", 1, 16, 0, 1, 0, 2⟩ : NodeRecord)].filter
            fun n => nodeIsOnline n.state).map fun n => n.c_t).sum :=
  have h : get_cluster_stats "NodeName=a State=IDLE CPUAlloc=2 CPUTot=4 Gres=gpu:8\nNodeName=b State=DRAINING CPUAlloc=1 CPUTot=16 Gres=gpu:2" =
      some ([⟨"a", "IDLE", 2, 4, 0, 1, 0, 8⟩, ⟨"b", "DRAINING", 1, 16, 0, 1, 0, 2⟩],
        (3, 20, 0, 10), (4, 8)) := by decide
  ⟨h, (online_capacity_sums _ _ _ _ h).1⟩

theorem intField_of_none (pairs : List (String × String)) (k : String) (dflt : Int)
    (h : pyDictGet pairs k = none) : intField pairs k dflt = some dflt := by
  simp [intField, h]

/-- C2 (amended): a node line missing a recognized key gives that field its
default — `"Unknown"` for the name and state, 0 for `CPUAlloc`, `CPUTot` and
`AllocMem`, 1 (not 0) for `RealMemory`, 0 for the GPU fields — and the record
list of a whole parse equals the independent per-line parses, so one line
never affects its neighbours. -/
theorem node_defaults_amended :
    (∀ line nd, parseNodeLine line = some nd →
      ((pyDictGet (tokenPairs line) "NodeName" = none → nd.name = "Unknown") ∧
       (pyDictGet (tokenPairs line) "State" = none → nd.state = "Unknown") ∧
       (pyDictGet (tokenPairs line) "CPUAlloc" = none → nd.c_u = 0) ∧
       (pyDictGet (tokenPairs line) "CPUTot" = none → nd.c_t = 0) ∧
       (pyDictGet (tokenPairs line) "AllocMem" = none → nd.m_u = 0) ∧
       (pyDictGet (tokenPairs line) "RealMemory" = none → nd.m_t = 1) ∧
       (pyDictGet (tokenPairs line) "Gres" = none → nd.g_t = 0) ∧
       (pyDictGet (tokenPairs line) "AllocTRES" = none → nd.g_u = 0))) ∧
    (∀ output res, get_cluster_stats output = some res →
      parseNodeLines (pySplitNewline output) = some res.1) := by
  constructor
  · intro line nd h
    cases h1 : intField (tokenPairs line) "CPUAlloc" 0 with
    | none => simp [parseNodeLine, h1] at h
    | some c_u =>
    cases h2 : intField (tokenPairs line) "CPUTot" 0 with
    | none => simp [parseNodeLine, h1, h2] at h
    | some c_t =>
    cases h3 : intField (tokenPairs line) "AllocMem" 0 with
    | none => simp [parseNodeLine, h1, h2, h3] at h
    | some m_u =>
    cases h4 : intField (tokenPairs line) "RealMemory" 1 with
    | none => simp [parseNodeLine, h1, h2, h3, h4] at h
    | some m_t =>
    simp only [parseNodeLine, h1, h2, h3, h4, Option.some.injEq] at h
    subst h
    refine ⟨?_, ?_, ?_, ?_, ?_, ?_, ?_, ?_⟩
    · intro hk; simp [hk]
    · intro hk; simp [hk]
    · intro hk
      rw [intField_of_none _ _ _ hk] at h1
      exact (Option.some.inj h1).symm
    · intro hk
      rw [intField_of_none _ _ _ hk] at h2
      exact (Option.some.inj h2).symm
    · intro hk
      rw [intField_of_none _ _ _ hk] at h3
      exact (Option.some.inj h3).symm
    · intro hk
      rw [intField_of_none _ _ _ hk] at h4
      exact (Option.some.inj h4).symm
    · intro hk
      show nodeGpuTotal ((pyDictGet (tokenPairs line) "Gres").getD "") = 0
      rw [hk]
      decide
    · intro hk
      show nodeGpuAlloc ((pyDictGet (tokenPairs line) "AllocTRES").getD "") = 0
      rw [hk]
      decide
  · intro output res h
    rw [get_cluster_stats_eq] at h
    cases hq : parseNodeLines (pySplitNewline output) with
    | none => rw [hq] at h; exact absurd h (by simp)
    | some ns =>
      rw [hq] at h
      simp only [Option.some.injEq] at h
      rw [← h]

theorem node_defaults_amended_witness :
    parseNodeLine "Gres=abc" =
      some ⟨"Unknown", "Unknown", 0, 0, 0, 1, 0, 0⟩ ∧
    (⟨"Unknown", "Unknown", 0, 0, 0, 1, 0, 0⟩ : NodeRecord).m_t = 1 ∧
    (⟨"Unknown", "Unknown", 0, 0, 0, 1, 0, 0⟩ : NodeRecord).name = "Unknown" :=
  have h : parseNodeLine "Gres=abc" =
      some ⟨"Unknown", "Unknown", 0, 0, 0, 1, 0, 0⟩ := by decide
  ⟨h, ((node_defaults_amended.1 "Gres=abc" _ h).2.2.2.2.2.1 (by decide)),
    ((node_defaults_amended.1 "Gres=abc" _ h).1 (by decide))⟩

/-- C2 counterexample: a node line with no `RealMemory` key yields
`m_t = 1`, not the 0 the claim requires for every integer field. -/
theorem realMemory_default_not_zero :
    (parseNodeLine "NodeName=n1").map NodeRecord.m_t ≠ some 0 := by decide

theorem string_mk_toList (s : String) : String.mk s.toList = s := rfl

theorem pySplitGo_chars : ∀ (l acc : List Char) (t : String), t ∈ pySplitGo l acc →
    ∀ c : Char, c ∈ t.toList → c ∈ l ∨ c ∈ acc := by
  intro l
  induction l with
  | nil =>
    intro acc t ht c hc
    by_cases ha : acc = []
    · simp [pySplitGo, ha] at ht
    · simp only [pySplitGo] at ht
      rw [if_neg ha] at ht
      rw [List.mem_singleton] at ht
      subst ht
      right
      exact List.mem_reverse.mp hc
  | cons c0 cs ih =>
    intro acc t ht c hc
    by_cases hs : pyIsSpace c0
    · by_cases ha : acc = []
      · simp only [pySplitGo, hs, ha, if_true] at ht
        rcases ih [] t ht c hc with h | h
        · exact Or.inl (List.mem_cons_of_mem _ h)
        · simp at h
      · simp only [pySplitGo, hs, if_true] at ht
        rw [if_neg ha] at ht
        rcases List.mem_cons.mp ht with h | h
        · subst h
          right
          exact List.mem_reverse.mp hc
        · rcases ih [] t h c hc with h2 | h2
          · exact Or.inl (List.mem_cons_of_mem _ h2)
          · simp at h2
    · simp only [pySplitGo, hs, Bool.false_eq_true, if_false] at ht
      rcases ih (c0 :: acc) t ht c hc with h | h
      · exact Or.inl (List.mem_cons_of_mem _ h)
      · rcases List.mem_cons.mp h with h2 | h2
        · subst h2
          exact Or.inl (List.mem_cons_self c cs)
        · exact Or.inr h2

theorem tokenPairs_of_no_eq (line : String) (h : '=' ∉ line.toList) :
    tokenPairs line = [] := by
  simp only [tokenPairs]
  rw [List.filterMap_eq_nil_iff]
  intro t ht
  have hnot : '=' ∉ t.toList := by
    intro hmem
    rcases pySplitGo_chars line.toList [] t ht '=' hmem with h2 | h2
    · exact h h2
    · simp at h2
  by_cases hc : t.toList.contains '=' = true
  · exact absurd (List.mem_of_elem_eq_true hc) hnot
  · simp only [Bool.not_eq_true] at hc
    simp only [hc, Bool.false_eq_true, if_false]

theorem splitLinesGo_no_newline : ∀ (l acc : List Char), '\n' ∉ l →
    splitLinesGo l acc = [String.mk (acc.reverse ++ l)] := by
  intro l
  induction l with
  | nil =>
    intro acc h
    simp [splitLinesGo]
  | cons c cs ih =>
    intro acc h
    have hc : c ≠ '\n' := fun he => h (he ▸ List.mem_cons_self c cs)
    simp only [splitLinesGo]
    rw [if_neg hc, ih (c :: acc) (fun hm => h (List.mem_cons_of_mem c hm))]
    simp [List.reverse_cons, List.append_assoc]

/-- C10: a non-blank line with no `=` token (for example captured shell error
text) still produces a record, with name and state `"Unknown"`, every integer
field 0 except `m_t = 1`, and the whole parse of that single line yields a
one-record list, not an empty one. -/
theorem no_equals_line_default_record (line : String)
    (h1 : '=' ∉ line.toList) (h2 : isBlankLine line = false) (h3 : '\n' ∉ line.toList) :
    parseNodeLine line = some ⟨"Unknown", "Unknown", 0, 0, 0, 1, 0, 0⟩ ∧
    get_cluster_stats line =
      some ([⟨"Unknown", "Unknown", 0, 0, 0, 1, 0, 0⟩], (0, 0, 0, 0), (0, 0)) := by
  have htp := tokenPairs_of_no_eq line h1
  have hparse : parseNodeLine line = some ⟨"Unknown", "Unknown", 0, 0, 0, 1, 0, 0⟩ := by
    simp only [parseNodeLine, htp]
    decide
  refine ⟨hparse, ?_⟩
  have hsplit : pySplitNewline line = [line] := by
    rw [show pySplitNewline line = splitLinesGo line.toList [] from rfl,
      splitLinesGo_no_newline line.toList [] h3, List.reverse_nil, List.nil_append,
      string_mk_toList]
  unfold get_cluster_stats
  rw [hsplit]
  simp only [nodeLoop, h2, Bool.false_eq_true, if_false, hparse]
  decide

theorem no_equals_line_default_record_witness :
    parseNodeLine "sh: scontrol: command not found" =
      some ⟨"Unknown", "Unknown", 0, 0, 0, 1, 0, 0⟩ ∧
    get_cluster_stats "sh: scontrol: command not found" =
      some ([⟨"Unknown", "Unknown", 0, 0, 0, 1, 0, 0⟩], (0, 0, 0, 0), (0, 0)) :=
  no_equals_line_default_record "sh: scontrol: command not found"
    (by decide) (by decide) (by decide)
